import Mathlib

/-!
Shallow embedding of the authentication/session core of the
`attentive-intranet-api` backend, and proofs of its specified properties.

Embedded source files:
- `app/core/config.py`  — `Settings` (auth-relevant fields)
- `app/core/auth.py`    — password verification, `_exp`, `create_token`,
  `decode_token`
- `app/core/security.py`— `get_current_user_id`
- `app/routers/auth.py` — `login`, `refresh`, `me`, cookie handling

External libraries (python-jose, passlib, bson) are modelled explicitly;
each model carries a doc comment describing the library behaviour it
captures.  Clock reads (`datetime.now(timezone.utc)`) are threaded as
explicit integer parameters: each parameter is the whole-second floor of
one `now()` call, which is exact because every use in the source floors
the timestamp to an `int` and only ever adds whole seconds to it.
-/

namespace Attentive

/-- Auth-relevant fields of `Settings` (`app/core/config.py`).  The Mongo,
CORS and logging fields play no part in the token subsystem and are not
modelled. -/
structure Settings where
  SECRET_KEY : String
  ALGORITHM : String
  ACCESS_TOKEN_EXPIRE_MINUTES : Int
  MAJOR_TOKEN_EXPIRE_HOURS : Int
deriving DecidableEq, Repr

/-- The module-level `settings = Settings()` instance with the defaults of
`app/core/config.py` (no `.env` overrides). -/
def defaultSettings : Settings :=
  { SECRET_KEY := "change-me"
    ALGORITHM := "HS256"
    ACCESS_TOKEN_EXPIRE_MINUTES := 60
    MAJOR_TOKEN_EXPIRE_HOURS := 7 }

/-- The JWT claim set built by `create_token` (`app/core/auth.py`):
`{"sub": ..., "type": ..., "exp": ..., "iat": ...}`.  Timestamps are whole
seconds since the epoch, UTC. -/
structure Payload where
  sub : String
  type : String
  exp : Int
  iat : Int
deriving DecidableEq, Repr

/-- A candidate token string.  `Tok.jwt p key alg` stands for a compact JWS
whose claim set is `p`, signed with HMAC key `key` under algorithm `alg`
(signature validity is modelled as key equality — the standard symbolic
model of an unforgeable MAC); `Tok.malformed s` stands for any string that
is not a well-formed three-segment JWS. -/
inductive Tok where
  | jwt (payload : Payload) (key : String) (alg : String)
  | malformed (s : String)
deriving DecidableEq, Repr

/-- Errors raised by python-jose `jwt.decode` (all subclasses of
`JWTError`). -/
inductive JoseError where
  | notEnoughSegments
  | invalidAlgorithm
  | signatureVerificationFailed
  | expiredSignature
deriving DecidableEq, Repr

/-- Model of python-jose `jose.jwt.decode(token, key, algorithms)` with
default options, evaluated when the decoding clock reads `now` whole
seconds: a malformed string fails to parse; the header algorithm must be
in the allowed list; the signature must verify against `key`; and
`_validate_exp` (with its default `leeway = 0`) raises
`ExpiredSignatureError` iff `exp < now` — a token is still accepted at the
exact second `now = exp`, since the library's check is the strict
comparison `exp < now - leeway`. -/
def jose_jwt_decode (tok : Tok) (key : String) (algorithms : List String)
    (now : Int) : Except JoseError Payload :=
  match tok with
  | .malformed _ => .error .notEnoughSegments
  | .jwt payload tkey talg =>
    if ¬ algorithms.contains talg then .error .invalidAlgorithm
    else if tkey ≠ key then .error .signatureVerificationFailed
    else if payload.exp < now then .error .expiredSignature
    else .ok payload

/-- Error raised by passlib when a digest matches no configured scheme
(`passlib.exc.UnknownHashError`, a `ValueError` subclass). -/
inductive PasslibError where
  | unknownHash
deriving DecidableEq, Repr

/-- Identification prefixes of the two schemes configured in
`CryptContext(schemes=["bcrypt_sha256", "bcrypt"])`: passlib identifies a
digest by its `$...$` ident prefix. -/
def passlibSchemeIdents : List String :=
  ["$bcrypt-sha256$", "$2$", "$2a$", "$2b$", "$2x$", "$2y$"]

/-- `identMatch p d` is `true` iff the character list `p` is an initial
segment of `d` (the executable prefix test used to match scheme idents). -/
def identMatch : List Char → List Char → Bool
  | [], _ => true
  | _ :: _, [] => false
  | c :: cs, d :: ds => c = d && identMatch cs ds

/-- `True` iff one of the configured schemes recognises the digest. -/
def passlibIdentifies (digest : String) : Bool :=
  passlibSchemeIdents.any (fun p => identMatch p.toList digest.toList)

/-- The bcrypt verification primitive underneath the `CryptContext`.  Its
cryptographic behaviour is opaque to this development, so it is carried as
a parameter: models of the context differ only in this function. -/
structure CryptCtx where
  bcryptVerify : String → String → Bool

/-- Model of `CryptContext.verify(secret, hash)` for the context of
`app/core/auth.py`: passlib first identifies the hash's scheme from its
ident prefix and raises `UnknownHashError` when no configured scheme
matches; otherwise the identified scheme's verifier decides the result. -/
def pwd_context_verify (ctx : CryptCtx) (secret digest : String) :
    Except PasslibError Bool :=
  if passlibIdentifies digest then .ok (ctx.bcryptVerify secret digest)
  else .error .unknownHash

/-- `verify_password` (`app/core/auth.py`): returns `False` outright for a
falsy (empty) digest, otherwise defers to `pwd_context.verify`; a
`PasslibError` from the context propagates to the caller. -/
def verify_password (ctx : CryptCtx) (plain_password hashed_password : String) :
    Except PasslibError Bool :=
  if hashed_password = "" then .ok false
  else pwd_context_verify ctx plain_password hashed_password

/-- `_exp` (`app/core/auth.py`): expiry computed from the clock read `now`
(whole seconds) plus the given minutes, else the given hours, else 15
minutes.  `timedelta` adds whole seconds, so flooring commutes with the
addition and integer arithmetic is exact. -/
def _exp (now : Int) (minutes : Option Int) (hours : Option Int) : Int :=
  match minutes with
  | some m => now + m * 60
  | none =>
    match hours with
    | some h => now + h * 3600
    | none => now + 15 * 60

/-- A Python `ValueError`, carrying its message. -/
structure ValueError where
  msg : String
deriving DecidableEq, Repr

/-- `create_token` (`app/core/auth.py`).  The function reads the clock
twice: once inside `_exp` (read `texp`) and once for the `iat` claim (read
`tiat`, taken immediately after, so `texp ≤ tiat` in any real run).  An
empty `sub` or an unrecognised `token_type` raises `ValueError`. -/
def create_token (s : Settings) (texp tiat : Int) (sub : String)
    (token_type : String) : Except ValueError Tok :=
  if sub = "" then .error ⟨"sub is required"⟩
  else if token_type = "access" then
    .ok (.jwt ⟨sub, token_type, _exp texp (some s.ACCESS_TOKEN_EXPIRE_MINUTES) none, tiat⟩
      s.SECRET_KEY s.ALGORITHM)
  else if token_type = "major" then
    .ok (.jwt ⟨sub, token_type, _exp texp none (some s.MAJOR_TOKEN_EXPIRE_HOURS), tiat⟩
      s.SECRET_KEY s.ALGORITHM)
  else .error ⟨"invalid token_type"⟩

/-- `decode_token` (`app/core/auth.py`): `jwt.decode(token, SECRET_KEY,
algorithms=[ALGORITHM])`, re-raising any `JWTError` as `ValueError(str(e))`. -/
def decode_token (s : Settings) (now : Int) (token : Tok) :
    Except ValueError Payload :=
  match jose_jwt_decode token s.SECRET_KEY [s.ALGORITHM] now with
  | .ok payload => .ok payload
  | .error .notEnoughSegments => .error ⟨"Not enough segments"⟩
  | .error .invalidAlgorithm => .error ⟨"The specified alg value is not allowed"⟩
  | .error .signatureVerificationFailed => .error ⟨"Signature verification failed."⟩
  | .error .expiredSignature => .error ⟨"Signature has expired."⟩

/-- A FastAPI `HTTPException`: status code, `detail` body, optional extra
headers. -/
structure HTTPException where
  status_code : Nat
  detail : String
  headers : List (String × String)
deriving DecidableEq, Repr

/-- `get_current_user_id` (`app/core/security.py`): decode the bearer
token, require `type == "access"` and a non-empty `sub`; every failure
inside the `try` collapses to the same 401 with a `WWW-Authenticate:
Bearer` challenge header. -/
def get_current_user_id (s : Settings) (now : Int) (token : Tok) :
    Except HTTPException String :=
  match decode_token s now token with
  | .error _ => .error ⟨401, "Token inválido ou expirado", [("WWW-Authenticate", "Bearer")]⟩
  | .ok payload =>
    if payload.type ≠ "access" then
      .error ⟨401, "Token inválido ou expirado", [("WWW-Authenticate", "Bearer")]⟩
    else if payload.sub = "" then
      .error ⟨401, "Token inválido ou expirado", [("WWW-Authenticate", "Bearer")]⟩
    else .ok payload.sub

/-- A document of the `usuarios` collection, restricted to the fields the
auth routes read.  `_id` is the ObjectId rendered as its 24-char lowercase
hex string; `senha_hash` is `none` when the document lacks the field
(`user.get("senha_hash", "")` then yields `""`). -/
structure User where
  _id : String
  email : String
  senha_hash : Option String
  nome : String
  sobrenome : String
  departamento : Option String
  avatar_url : Option String
  descricao_html : Option String
deriving DecidableEq, Repr

/-- The `usuarios` collection; `find_one` returns the first matching
document. -/
def Db := List User

/-- `db["usuarios"].find_one({"email": email})`. -/
def find_one_email (db : Db) (email : String) : Option User :=
  List.find? (fun u => u.email = email) db

/-- `db["usuarios"].find_one({"_id": oid})`, with `oid` in normalised
(lowercase hex) form. -/
def find_one_id (db : Db) (oid : String) : Option User :=
  List.find? (fun u => u._id = oid) db

/-- Hexadecimal characters, as accepted by `bytes.fromhex`. -/
def isHexChar (c : Char) : Bool :=
  c.isDigit || (('a' ≤ c) && (c ≤ 'f')) || (('A' ≤ c) && (c ≤ 'F'))

/-- Model of `bson.ObjectId(s)` on a string argument: valid iff `s` is 24
hex characters (`InvalidId` otherwise); the resulting id renders as the
lowercase hex string. -/
def objectIdOfString (s : String) : Option String :=
  if s.length = 24 ∧ s.toList.all isHexChar then
    some (String.mk (s.toList.map Char.toLower))
  else none

/-- The sensitive-field-stripped user returned by `_build_safe_user`
(`app/routers/auth.py`): the document minus `senha`/`senha_hash`, with
`_id` stringified.  Only the modelled fields appear. -/
structure SafeUser where
  _id : String
  email : String
  nome : String
  sobrenome : String
  departamento : Option String
  avatar_url : Option String
  descricao_html : Option String
deriving DecidableEq, Repr

/-- `_build_safe_user` (`app/routers/auth.py`). -/
def _build_safe_user (u : User) : SafeUser :=
  ⟨u._id, u.email, u.nome, u.sobrenome, u.departamento, u.avatar_url, u.descricao_html⟩

/-- `COOKIE_NAME` (`app/routers/auth.py`). -/
def COOKIE_NAME : String := "major_token"

/-- A `Set-Cookie` instruction attached to a response
(`Response.set_cookie` / `Response.delete_cookie`). -/
inductive CookieOp where
  | set (key : String) (value : Tok) (httponly : Bool) (max_age : Int)
      (samesite : String) (secure : Bool) (path : String)
  | delete (key : String) (path : String)
deriving DecidableEq, Repr

/-- `_set_major_cookie` (`app/routers/auth.py`): the major token as an
HttpOnly, Secure, `SameSite=None` cookie with `Max-Age` equal to
`COOKIE_MAX_AGE = MAJOR_TOKEN_EXPIRE_HOURS * 60 * 60` seconds. -/
def _set_major_cookie (s : Settings) (token : Tok) : CookieOp :=
  .set COOKIE_NAME token true (s.MAJOR_TOKEN_EXPIRE_HOURS * 60 * 60) "none" true "/"

/-- A client cookie jar: name-to-token association, first entry wins. -/
def CookieJar := List (String × Tok)

/-- `request.cookies.get(name)`. -/
def cookieGet (jar : CookieJar) (name : String) : Option Tok :=
  (List.find? (fun p => p.1 = name) jar).map Prod.snd

/-- Effect of one `Set-Cookie` instruction on a client's jar. -/
def applyCookieOp (jar : CookieJar) (op : CookieOp) : CookieJar :=
  match op with
  | .set key value _ _ _ _ _ => (key, value) :: List.filter (fun p => p.1 ≠ key) jar
  | .delete key _ => List.filter (fun p => p.1 ≠ key) jar

/-- Effect of a response's cookie instructions on a client's jar. -/
def applyCookieOps (jar : CookieJar) (ops : List CookieOp) : CookieJar :=
  List.foldl applyCookieOp jar ops

/-- The `TokenOut` response model plus the response's cookie
instructions. -/
structure AuthResponse where
  access_token : Tok
  token_type : String
  usuario : SafeUser
  cookies : List CookieOp
deriving DecidableEq, Repr

/-- Outcome of `login`: an `HTTPException` response, or an exception from
the password context propagating out of the handler (which the framework
turns into a 500 — the handler itself does not catch it). -/
inductive LoginError where
  | http (e : HTTPException)
  | passlibError (e : PasslibError)
  | valueError (e : ValueError)
deriving DecidableEq, Repr

/-- `login` (`app/routers/auth.py`).  Clock reads: `texp1`/`tiat1` for the
access token's `create_token`, `texp2`/`tiat2` for the major token's.
Missing user and failed verification raise the identical
`HTTPException(401, "Credenciais inválidas")`;  on success the access
token is returned in the body and the major token only as a cookie. -/
def login (ctx : CryptCtx) (s : Settings) (db : Db)
    (texp1 tiat1 texp2 tiat2 : Int) (email senha : String) :
    Except LoginError AuthResponse :=
  match find_one_email db email with
  | none => .error (.http ⟨401, "Credenciais inválidas", []⟩)
  | some user =>
    match verify_password ctx senha (user.senha_hash.getD "") with
    | .error e => .error (.passlibError e)
    | .ok false => .error (.http ⟨401, "Credenciais inválidas", []⟩)
    | .ok true =>
      match create_token s texp1 tiat1 user._id "access",
            create_token s texp2 tiat2 user._id "major" with
      | .ok access, .ok major =>
        .ok ⟨access, "bearer", _build_safe_user user, [_set_major_cookie s major]⟩
      | .error e, _ => .error (.valueError e)
      | _, .error e => .error (.valueError e)

/-- `refresh` (`app/routers/auth.py`).  Reads the major token from the
cookie jar; decode failure, wrong `type` and empty `sub` all collapse (via
the `except` clause) to the same 401; then the subject must parse as an
ObjectId and resolve to a user.  The response carries a fresh access token
(clock reads `texp`/`tiat`) and sets no cookie. -/
def refresh (s : Settings) (db : Db) (texp tiat now : Int)
    (cookies : CookieJar) : Except HTTPException AuthResponse :=
  match cookieGet cookies COOKIE_NAME with
  | none => .error ⟨401, "Major token ausente", []⟩
  | some major =>
    match decode_token s now major with
    | .error _ => .error ⟨401, "Major token inválido ou expirado", []⟩
    | .ok payload =>
      if payload.type ≠ "major" then
        .error ⟨401, "Major token inválido ou expirado", []⟩
      else if payload.sub = "" then
        .error ⟨401, "Major token inválido ou expirado", []⟩
      else
        match objectIdOfString payload.sub with
        | none => .error ⟨401, "ID inválido no token", []⟩
        | some oid =>
          match find_one_id db oid with
          | none => .error ⟨401, "Usuário não encontrado", []⟩
          | some user =>
            match create_token s texp tiat payload.sub "access" with
            | .ok new_access => .ok ⟨new_access, "bearer", _build_safe_user user, []⟩
            | .error _ => .error ⟨500, "Internal Server Error", []⟩

/-- The body returned by `/auth/me`. -/
structure MeOut where
  id : String
  display_name : String
  departamento : Option String
  avatar_url : Option String
  descricao_html : String
deriving DecidableEq, Repr

/-- `me` (`app/routers/auth.py`).  Decodes the bearer token without any
`type` check.  The `HTTPException(401, "Token inválido")` raised for an
empty `sub` inside the `try` block is itself an `Exception`, so the
`except` clause replaces it with the generic 401.  Unlike `refresh`, a
non-resolving subject yields a 404. -/
def me (s : Settings) (db : Db) (now : Int) (authorization : Option Tok) :
    Except HTTPException MeOut :=
  match authorization with
  | none => .error ⟨401, "Token ausente", []⟩
  | some token =>
    match decode_token s now token with
    | .error _ => .error ⟨401, "Token inválido ou expirado", []⟩
    | .ok payload =>
      if payload.sub = "" then
        .error ⟨401, "Token inválido ou expirado", []⟩
      else
        match objectIdOfString payload.sub with
        | none => .error ⟨401, "ID inválido no token", []⟩
        | some oid =>
          match find_one_id db oid with
          | none => .error ⟨404, "Usuário não encontrado", []⟩
          | some user =>
            .ok ⟨user._id, user.nome, user.departamento, user.avatar_url,
              user.descricao_html.getD ""⟩

/-- The claim set of a well-formed JWS, if any. -/
def Tok.claims? : Tok → Option Payload
  | .jwt p _ _ => some p
  | .malformed _ => none

/-- The `exp` claim of a well-formed JWS, if any. -/
def Tok.exp? (t : Tok) : Option Int :=
  (t.claims?).map Payload.exp

/-- The `type` claim of a well-formed JWS, if any. -/
def Tok.type? (t : Tok) : Option String :=
  (t.claims?).map Payload.type

/-- `true` iff the computation returned a value rather than raising. -/
def isOk {ε α : Type _} : Except ε α → Bool
  | .ok _ => true
  | .error _ => false

/-- The HTTP status code of a handler outcome, when it is an error. -/
def errStatus {α : Type _} : Except HTTPException α → Option Nat
  | .error e => some e.status_code
  | .ok _ => none

instance {ε α : Type _} [DecidableEq ε] [DecidableEq α] :
    DecidableEq (Except ε α) := fun a b =>
  match a, b with
  | .ok x, .ok y =>
    if h : x = y then .isTrue (by rw [h]) else
      .isFalse (by intro hc; cases hc; exact h rfl)
  | .error x, .error y =>
    if h : x = y then .isTrue (by rw [h]) else
      .isFalse (by intro hc; cases hc; exact h rfl)
  | .ok _, .error _ => .isFalse (by intro hc; cases hc)
  | .error _, .ok _ => .isFalse (by intro hc; cases hc)

/-- Characterisation of a successful `create_token`: the subject is
non-empty, the kind is one of the two recognised values, and the token is
the JWS over the built claim set, signed with the configured secret and
algorithm. -/
lemma create_token_ok_inv {s : Settings} {texp tiat : Int} {sub k : String}
    {tok : Tok} (h : create_token s texp tiat sub k = .ok tok) :
    sub ≠ "" ∧ (k = "access" ∨ k = "major") ∧
    tok = .jwt
      ⟨sub, k,
        texp + (if k = "access" then s.ACCESS_TOKEN_EXPIRE_MINUTES * 60
                else s.MAJOR_TOKEN_EXPIRE_HOURS * 3600),
        tiat⟩
      s.SECRET_KEY s.ALGORITHM := by
  by_cases h1 : sub = ""
  · simp [create_token, h1] at h
  · by_cases h2 : k = "access"
    · subst h2
      unfold create_token at h
      rw [if_neg h1, if_pos rfl] at h
      injection h with h
      subst h
      exact ⟨h1, Or.inl rfl, by simp [_exp]⟩
    · by_cases h3 : k = "major"
      · subst h3
        unfold create_token at h
        rw [if_neg h1, if_neg (show ¬("major" = "access") by decide),
          if_pos rfl] at h
        injection h with h
        subst h
        exact ⟨h1, Or.inr rfl, by simp [_exp]⟩
      · simp [create_token, h1, h2, h3] at h

/-- Characterisation of a successful `decode_token`: the token is a
well-formed JWS over the returned claim set, signed with the configured
secret under the configured algorithm, and not yet expired
(`¬ exp < now`). -/
lemma decode_token_ok_inv {s : Settings} {now : Int} {tok : Tok}
    {q : Payload} (h : decode_token s now tok = .ok q) :
    tok = .jwt q s.SECRET_KEY s.ALGORITHM ∧ ¬ q.exp < now := by
  cases tok with
  | malformed str => simp [decode_token, jose_jwt_decode] at h
  | jwt p key alg =>
    simp only [decode_token, jose_jwt_decode] at h
    by_cases h1 : alg = s.ALGORITHM
    · subst h1
      by_cases h2 : key = s.SECRET_KEY
      · subst h2
        by_cases h3 : p.exp < now
        · simp [h3] at h
        · simp [h3] at h
          exact ⟨by rw [h], h ▸ h3⟩
      · simp [h2] at h
    · simp [h1] at h

/-- A JWS over claims `p`, signed with the configured secret and
algorithm, decodes to `p` whenever it is not yet expired. -/
lemma decode_token_valid {s : Settings} {now : Int} {p : Payload}
    (h : ¬ p.exp < now) :
    decode_token s now (.jwt p s.SECRET_KEY s.ALGORITHM) = .ok p := by
  simp [decode_token, jose_jwt_decode, h]

/-- C1: token round-trip.  A token minted by `create_token` for a subject
and kind, decoded before its expiry with the same settings, yields exactly
the claim set that was encoded — in particular its `sub` is the original
subject and its `type` is the original kind. -/
theorem C1_token_round_trip (s : Settings) (texp tiat now e : Int)
    (sub k : String) (tok : Tok)
    (hk : k = "access" ∨ k = "major")
    (htok : create_token s texp tiat sub k = .ok tok)
    (hexp : tok.exp? = some e) (hnow : now < e) :
    decode_token s now tok = .ok
      ⟨sub, k,
        texp + (if k = "access" then s.ACCESS_TOKEN_EXPIRE_MINUTES * 60
                else s.MAJOR_TOKEN_EXPIRE_HOURS * 3600),
        tiat⟩ := by
  obtain ⟨-, -, rfl⟩ := create_token_ok_inv htok
  simp only [Tok.exp?, Tok.claims?] at hexp
  simp at hexp
  refine decode_token_valid ?_
  intro hlt
  simp at hlt
  omega

/-- C1 witness: a concrete access token for subject `"u"`, minted at
second 0 and decoded at second 100, round-trips. -/
theorem C1_token_round_trip_witness :
    decode_token defaultSettings 100
      (.jwt ⟨"u", "access", 3600, 0⟩ "change-me" "HS256") =
      .ok ⟨"u", "access", 3600, 0⟩ := by
  have h := C1_token_round_trip defaultSettings 0 0 100 3600 "u" "access"
    (.jwt ⟨"u", "access", 3600, 0⟩ "change-me" "HS256")
    (Or.inl rfl) (by decide) (by decide) (by decide)
  simpa [defaultSettings] using h

/-- C2: cross-kind rejection.  A token whose `type` claim is `"access"`,
presented as the `major_token` cookie, makes `refresh` fail with the 401
`Unauthorized` response (whatever its key, algorithm or expiry);
symmetrically a token whose `type` claim is `"major"`, presented as the
bearer token, makes `get_current_user_id` fail with its 401 `Unauthorized`
response. -/
theorem C2_cross_kind_rejection :
    (∀ (s : Settings) (db : Db) (texp tiat now : Int) (cookies : CookieJar)
      (p : Payload) (key alg : String),
      cookieGet cookies COOKIE_NAME = some (.jwt p key alg) →
      p.type = "access" →
      refresh s db texp tiat now cookies =
        .error ⟨401, "Major token inválido ou expirado", []⟩) ∧
    (∀ (s : Settings) (now : Int) (p : Payload) (key alg : String),
      p.type = "major" →
      get_current_user_id s now (.jwt p key alg) =
        .error ⟨401, "Token inválido ou expirado", [("WWW-Authenticate", "Bearer")]⟩) := by
  constructor
  · intro s db texp tiat now cookies p key alg hc hty
    cases hdec : decode_token s now (.jwt p key alg) with
    | error e => simp [refresh, hc, hdec]
    | ok q =>
      obtain ⟨hjwt, -⟩ := decode_token_ok_inv hdec
      injection hjwt with hq hkey halg
      simp [refresh, hc, hdec, ← hq, hty]
  · intro s now p key alg hty
    cases hdec : decode_token s now (.jwt p key alg) with
    | error e => simp [get_current_user_id, hdec]
    | ok q =>
      obtain ⟨hjwt, -⟩ := decode_token_ok_inv hdec
      injection hjwt with hq hkey halg
      simp [get_current_user_id, hdec, ← hq, hty]

/-- C2 witness: a concrete unexpired access token is rejected by `refresh`
and a concrete unexpired major token is rejected by the access guard. -/
theorem C2_cross_kind_rejection_witness :
    refresh defaultSettings [] 0 0 0
      [("major_token", .jwt ⟨"u", "access", 3600, 0⟩ "change-me" "HS256")] =
      .error ⟨401, "Major token inválido ou expirado", []⟩ ∧
    get_current_user_id defaultSettings 0
      (.jwt ⟨"u", "major", 25200, 0⟩ "change-me" "HS256") =
      .error ⟨401, "Token inválido ou expirado", [("WWW-Authenticate", "Bearer")]⟩ :=
  ⟨C2_cross_kind_rejection.1 defaultSettings [] 0 0 0 _
    ⟨"u", "access", 3600, 0⟩ "change-me" "HS256" (by decide) rfl,
   C2_cross_kind_rejection.2 defaultSettings 0
    ⟨"u", "major", 25200, 0⟩ "change-me" "HS256" rfl⟩

/-- C3 counterexample: python-jose's expiry check is the strict comparison
`exp < now`, so a token decoded at the exact second of its `exp` claim
still yields its payload — the claim's "at or after" fails at the "at"
boundary.  The token below is produced by `create_token` at second 0 with
the default 60-minute access TTL (`exp = 3600`) and decoded at second
3600. -/
theorem C3_counterexample :
    create_token defaultSettings 0 0 "u" "access" =
      .ok (.jwt ⟨"u", "access", 3600, 0⟩ "change-me" "HS256") ∧
    decode_token defaultSettings 3600
      (.jwt ⟨"u", "access", 3600, 0⟩ "change-me" "HS256") =
      .ok ⟨"u", "access", 3600, 0⟩ := by
  decide

/-- C3 (amended): decoding any JWS at a time strictly after its `exp`
claim fails with an error (never returns a payload); at the exact `exp`
second the payload is still returned (see the counterexample). -/
theorem C3_expiry_enforcement (s : Settings) (now : Int) (p : Payload)
    (key alg : String) (h : p.exp < now) :
    isOk (decode_token s now (.jwt p key alg)) = false := by
  by_cases h1 : alg = s.ALGORITHM
  · subst h1
    by_cases h2 : key = s.SECRET_KEY
    · subst h2
      simp [decode_token, jose_jwt_decode, h, isOk]
    · simp [decode_token, jose_jwt_decode, h2, isOk]
  · simp [decode_token, jose_jwt_decode, h1, isOk]

/-- C3 witness: the concrete access token with `exp = 3600` no longer
decodes at second 3601. -/
theorem C3_expiry_enforcement_witness :
    isOk (decode_token defaultSettings 3601
      (.jwt ⟨"u", "access", 3600, 0⟩ "change-me" "HS256")) = false :=
  C3_expiry_enforcement defaultSettings 3601 ⟨"u", "access", 3600, 0⟩
    "change-me" "HS256" (by decide)

/-- C4 counterexample: `verify_password` only short-circuits on an *empty*
digest; a non-empty digest that no configured scheme identifies makes
`pwd_context.verify` raise `UnknownHashError`, which propagates — the
call does not return `false`. -/
theorem C4_counterexample :
    verify_password ⟨fun _ _ => false⟩ "pw" "not-a-digest" =
      .error .unknownHash := by
  decide

/-- C4 (amended): for every plaintext, `verify_password` returns `false`
(and cannot raise) when the digest is the empty string; for a non-empty
digest matched by no configured scheme ident it raises the context's
`UnknownHashError` instead of returning. -/
theorem C4_verify_totality (ctx : CryptCtx) (plain digest : String) :
    (digest = "" → verify_password ctx plain digest = .ok false) ∧
    (digest ≠ "" → passlibIdentifies digest = false →
      verify_password ctx plain digest = .error .unknownHash) := by
  constructor
  · intro h
    simp [verify_password, h]
  · intro h hid
    simp [verify_password, h, pwd_context_verify, hid]

/-- C4 witness: concrete empty and unidentifiable digests, under a context
whose underlying verifier always says `false`. -/
theorem C4_verify_totality_witness :
    verify_password ⟨fun _ _ => false⟩ "pw" "" = .ok false ∧
    verify_password ⟨fun _ _ => false⟩ "pw" "plaintext" =
      .error .unknownHash :=
  ⟨(C4_verify_totality ⟨fun _ _ => false⟩ "pw" "").1 rfl,
   (C4_verify_totality ⟨fun _ _ => false⟩ "pw" "plaintext").2
     (by decide) (by decide)⟩

/-- C5: encode precondition.  `create_token` with an empty subject, or
with a kind other than `"access"`/`"major"`, raises `ValueError` and
produces no token. -/
theorem C5_encode_precondition (s : Settings) (texp tiat : Int)
    (sub k : String) (h : sub = "" ∨ (k ≠ "access" ∧ k ≠ "major")) :
    isOk (create_token s texp tiat sub k) = false := by
  rcases h with h | ⟨h1, h2⟩
  · simp [create_token, h, isOk]
  · by_cases hs : sub = ""
    · simp [create_token, hs, isOk]
    · simp [create_token, hs, h1, h2, isOk]

/-- C5 witness: the empty subject and the unrecognised kind `"refresh"`
are both rejected. -/
theorem C5_encode_precondition_witness :
    isOk (create_token defaultSettings 0 0 "" "access") = false ∧
    isOk (create_token defaultSettings 0 0 "u" "refresh") = false :=
  ⟨C5_encode_precondition defaultSettings 0 0 "" "access" (Or.inl rfl),
   C5_encode_precondition defaultSettings 0 0 "u" "refresh"
     (Or.inr ⟨by decide, by decide⟩)⟩

/-- A seeded user document used by the concrete witnesses. -/
def user0 : User :=
  { _id := "655f1a2b3c4d5e6f70812345"
    email := "ana@example.com"
    senha_hash := some "$2b$12$legacyhash"
    nome := "Ana"
    sobrenome := "Silva"
    departamento := some "Fiscal"
    avatar_url := none
    descricao_html := some "<p>oi</p>" }

/-- A concrete `usuarios` collection holding just `user0`. -/
def db0 : Db := [user0]

/-- A concrete password context whose underlying bcrypt verifier rejects
every pair (used to exercise the failure paths). -/
def ctx0 : CryptCtx := ⟨fun _ _ => false⟩

/-- C6: uniform login failure.  A login whose email matches no user and a
login whose user exists but whose password fails verification produce the
very same response value: status 401 with body `"Credenciais inválidas"`
— nothing distinguishes the two failures. -/
theorem C6_uniform_login_failure (ctx : CryptCtx) (s : Settings)
    (db1 db2 : Db) (a1 b1 c1 d1 a2 b2 c2 d2 : Int)
    (email1 senha1 email2 senha2 : String) (u : User)
    (h1 : find_one_email db1 email1 = none)
    (h2 : find_one_email db2 email2 = some u)
    (h3 : verify_password ctx senha2 (u.senha_hash.getD "") = .ok false) :
    login ctx s db1 a1 b1 c1 d1 email1 senha1 =
      .error (.http ⟨401, "Credenciais inválidas", []⟩) ∧
    login ctx s db2 a2 b2 c2 d2 email2 senha2 =
      .error (.http ⟨401, "Credenciais inválidas", []⟩) := by
  constructor
  · simp [login, h1]
  · simp [login, h2, h3]

/-- C6 witness: an unknown email against `db0`, and `user0`'s email with a
password its stored hash rejects, yield the identical 401 response. -/
theorem C6_uniform_login_failure_witness :
    login ctx0 defaultSettings db0 0 0 0 0 "bob@example.com" "pw" =
      .error (.http ⟨401, "Credenciais inválidas", []⟩) ∧
    login ctx0 defaultSettings db0 0 0 0 0 "ana@example.com" "wrong" =
      .error (.http ⟨401, "Credenciais inválidas", []⟩) :=
  C6_uniform_login_failure ctx0 defaultSettings db0 db0 0 0 0 0 0 0 0 0
    "bob@example.com" "pw" "ana@example.com" "wrong" user0
    (by decide) (by decide) (by decide)

/-- C7 counterexample: `create_token` reads the clock once inside `_exp`
and again for `iat`; when the second boundary falls between the two reads
(here seconds 0 and 1), the minted access token has `exp = 3600` but
`iat = 1`, so `exp ≠ iat + 3600` — the claimed exact equality fails. -/
theorem C7_counterexample :
    create_token defaultSettings 0 1 "u" "access" =
      .ok (.jwt ⟨"u", "access", 3600, 1⟩ "change-me" "HS256") ∧
    (3600 : Int) ≠ 1 + 60 * 60 := by
  decide

/-- C7 (amended): the `exp` claim equals the `_exp` clock read plus the
kind's TTL in seconds; when the two clock reads of `create_token` fall in
the same whole second (the argument `t` for both), `exp = iat + TTL`
holds exactly — access TTL being `ACCESS_TOKEN_EXPIRE_MINUTES * 60` and
major TTL `MAJOR_TOKEN_EXPIRE_HOURS * 3600` seconds. -/
theorem C7_expiry_arithmetic (s : Settings) (t : Int) (sub k : String)
    (p : Payload) (key alg : String)
    (h : create_token s t t sub k = .ok (.jwt p key alg)) :
    (k = "access" → p.exp = p.iat + s.ACCESS_TOKEN_EXPIRE_MINUTES * 60) ∧
    (k = "major" → p.exp = p.iat + s.MAJOR_TOKEN_EXPIRE_HOURS * 3600) := by
  obtain ⟨-, -, heq⟩ := create_token_ok_inv h
  injection heq with hp hkey halg
  subst hp
  constructor
  · intro hk
    subst hk
    simp
  · intro hk
    subst hk
    simp

/-- C7 witness: an access token minted with both clock reads at second 5
has `exp = 3605 = iat + 3600`. -/
theorem C7_expiry_arithmetic_witness :
    (⟨"u", "access", 3605, 5⟩ : Payload).exp =
      (⟨"u", "access", 3605, 5⟩ : Payload).iat +
        defaultSettings.ACCESS_TOKEN_EXPIRE_MINUTES * 60 :=
  (C7_expiry_arithmetic defaultSettings 5 "u" "access" ⟨"u", "access", 3605, 5⟩
    "change-me" "HS256" (by decide)).1 rfl

/-- C8: refresh frame condition.  A successful `refresh` response carries
an access-kind token, attaches no `Set-Cookie` instruction at all, and
therefore leaves any client cookie jar — in particular the `major_token`
cookie value and hence its `exp` claim — unchanged, across any number of
refreshes. -/
theorem C8_refresh_frame (s : Settings) (db : Db) (texp tiat now : Int)
    (cookies : CookieJar) (r : AuthResponse)
    (h : refresh s db texp tiat now cookies = .ok r) :
    r.cookies = [] ∧ r.access_token.type? = some "access" ∧
    (∀ jar : CookieJar, applyCookieOps jar r.cookies = jar) ∧
    (∀ (jar : CookieJar) (n : Nat),
      (fun j => applyCookieOps j r.cookies)^[n] jar = jar) := by
  unfold refresh at h
  repeat' split at h
  all_goals try cases h
  rename_i hct
  obtain ⟨-, -, rfl⟩ := create_token_ok_inv hct
  exact ⟨rfl, rfl, fun jar => rfl, fun jar n => Function.iterate_fixed rfl n⟩

/-- The major token of the C8/C10 witness scenario: kind `major`, subject
`user0`, minted at second 0 under the default 7-hour TTL. -/
def tokMajor0 : Tok :=
  .jwt ⟨"655f1a2b3c4d5e6f70812345", "major", 25200, 0⟩ "change-me" "HS256"

/-- The witness client's cookie jar after login: the major cookie only. -/
def jar0 : CookieJar := [("major_token", tokMajor0)]

/-- The successful refresh response of the witness scenario. -/
def r0 : AuthResponse :=
  { access_token :=
      .jwt ⟨"655f1a2b3c4d5e6f70812345", "access", 3700, 100⟩ "change-me" "HS256"
    token_type := "bearer"
    usuario := _build_safe_user user0
    cookies := [] }

/-- C8 witness: a concrete successful refresh against `db0` sets no
cookie and leaves the concrete jar `jar0` unchanged, also after three
iterated applications. -/
theorem C8_refresh_frame_witness :
    r0.cookies = [] ∧ r0.access_token.type? = some "access" ∧
    applyCookieOps jar0 r0.cookies = jar0 ∧
    (fun j => applyCookieOps j r0.cookies)^[3] jar0 = jar0 :=
  have h := C8_refresh_frame defaultSettings db0 100 100 50 jar0 r0 (by decide)
  ⟨h.1, h.2.1, h.2.2.1 jar0, h.2.2.2 jar0 3⟩

/-- C9 counterexample: two refresh failures inside the claim's scope — a
validly decoded major token whose `sub` is empty, and one whose `sub` is a
well-formed ObjectId resolving to no user — both return 401 but with
*different* bodies, the second being the literal "Usuário não encontrado":
the response does reveal whether the subject resolved to a user. -/
theorem C9_counterexample :
    refresh defaultSettings [] 0 0 50
      [("major_token", .jwt ⟨"", "major", 25200, 0⟩ "change-me" "HS256")] =
      .error ⟨401, "Major token inválido ou expirado", []⟩ ∧
    refresh defaultSettings [] 0 0 50
      [("major_token",
        .jwt ⟨"00000000000000000000aaaa", "major", 25200, 0⟩ "change-me" "HS256")] =
      .error ⟨401, "Usuário não encontrado", []⟩ ∧
    ("Major token inválido ou expirado" : String) ≠ "Usuário não encontrado" := by
  decide

/-- C9 (amended): with a validly decoded major token, an empty `sub`, a
`sub` that is no well-formed ObjectId, and a `sub` resolving to no user
all make `refresh` fail with HTTP status 401 — never 404 — though the
`detail` strings of these failures differ. -/
theorem C9_refresh_subject_resolution (s : Settings) (db : Db)
    (texp tiat now : Int) (cookies : CookieJar) (tok : Tok) (p : Payload)
    (hc : cookieGet cookies COOKIE_NAME = some tok)
    (hd : decode_token s now tok = .ok p)
    (hty : p.type = "major")
    (hfail : p.sub = "" ∨ objectIdOfString p.sub = none ∨
      (∃ oid, objectIdOfString p.sub = some oid ∧ find_one_id db oid = none)) :
    errStatus (refresh s db texp tiat now cookies) = some 401 := by
  rcases hfail with hf | hf | ⟨oid, ho, hu⟩
  · simp [refresh, hc, hd, hty, hf, errStatus]
  · by_cases hs : p.sub = "" <;>
      simp [refresh, hc, hd, hty, hf, hs, errStatus]
  · by_cases hs : p.sub = "" <;>
      simp [refresh, hc, hd, hty, hs, ho, hu, errStatus]

/-- C9 witness: the ghost-subject token (valid ObjectId, no matching
user) makes `refresh` fail with status 401. -/
theorem C9_refresh_subject_resolution_witness :
    errStatus (refresh defaultSettings [] 0 0 50
      [("major_token",
        .jwt ⟨"00000000000000000000aaaa", "major", 25200, 0⟩ "change-me" "HS256")]) =
      some 401 :=
  C9_refresh_subject_resolution defaultSettings [] 0 0 50 _
    (.jwt ⟨"00000000000000000000aaaa", "major", 25200, 0⟩ "change-me" "HS256")
    ⟨"00000000000000000000aaaa", "major", 25200, 0⟩
    (by decide) (by decide) rfl
    (.inr (.inr ⟨"00000000000000000000aaaa", by decide, rfl⟩))

/-- C10: `/auth/me` does not enforce the token kind.  Any validly signed,
unexpired token whose non-empty `sub` resolves to an existing user is
accepted by `me` — the user's data is returned even when the token's
`type` is `"major"` — although the very same token is rejected (401) by
the access guard used by other protected routes. -/
theorem C10_me_ignores_token_kind (s : Settings) (db : Db) (now : Int)
    (p : Payload) (oid : String) (u : User)
    (hty : p.type = "major") (hexp : ¬ p.exp < now) (hsub : p.sub ≠ "")
    (hoid : objectIdOfString p.sub = some oid)
    (hu : find_one_id db oid = some u) :
    me s db now (some (.jwt p s.SECRET_KEY s.ALGORITHM)) =
      .ok ⟨u._id, u.nome, u.departamento, u.avatar_url, u.descricao_html.getD ""⟩ ∧
    get_current_user_id s now (.jwt p s.SECRET_KEY s.ALGORITHM) =
      .error ⟨401, "Token inválido ou expirado", [("WWW-Authenticate", "Bearer")]⟩ := by
  have hd : decode_token s now (.jwt p s.SECRET_KEY s.ALGORITHM) = .ok p :=
    decode_token_valid hexp
  constructor
  · simp [me, hd, hsub, hoid, hu]
  · simp [get_current_user_id, hd, hty]

/-- C10 witness: the concrete unexpired major token for `user0` is served
by `/auth/me` but rejected by the access guard. -/
theorem C10_me_ignores_token_kind_witness :
    me defaultSettings db0 50 (some tokMajor0) =
      .ok ⟨"655f1a2b3c4d5e6f70812345", "Ana", some "Fiscal", none, "<p>oi</p>"⟩ ∧
    get_current_user_id defaultSettings 50 tokMajor0 =
      .error ⟨401, "Token inválido ou expirado", [("WWW-Authenticate", "Bearer")]⟩ :=
  C10_me_ignores_token_kind defaultSettings db0 50
    ⟨"655f1a2b3c4d5e6f70812345", "major", 25200, 0⟩
    "655f1a2b3c4d5e6f70812345" user0 rfl (by decide) (by decide)
    (by decide) (by decide)

end Attentive
